import Mathlib

/-!
Verification of the MSL (Metal Shading Language) backend, `src/back/msl.rs`.

The backend is shallowly embedded: each Rust item is translated to a Lean
definition of the same name where possible.  Rust `Result<T, Error>` together
with the possibility of a panic (`panic!` / `unimplemented!` in the source) is
modelled by the three-valued result type `Res`: `Res.ok`, `Res.err` (a
structured `Error` returned to the caller) and `Res.fatal` (a Rust panic, which
aborts and returns nothing).  Machine integers (`spirv::Word` = u32, `u8` slot
indices, `usize` arena indices) are modelled as `Nat`; none of the verified
code performs arithmetic on them, they are only compared and formatted, so no
wrap-around is observable.  Rust hash containers are modelled as association
lists (`binding_map`) and insertion-ordered duplicate-free lists (the
input/output variable sets and `uniforms_used`); iteration order of the Rust
hash set is unspecified, the insertion order is one admissible choice and none
of the proved statements depends on it.

The IR data model (`crate::Module` and friends) lives in the crate root, which
is not part of the provided sources; those definitions are modelled from the
spec (section 3, DATA MODEL) and are marked as such.  Everything in
`src/back/msl.rs` itself is translated directly from the source.
-/

namespace naga

/-- Modelled from the spec: `spirv::BuiltIn` (external spirv crate).  Only the
three built-ins recognised by the backend are named; all remaining variants are
collapsed into `other`, which the backend treats uniformly (it panics). -/
inductive BuiltIn where
  | ClipDistance : BuiltIn
  | PointSize : BuiltIn
  | Position : BuiltIn
  | other : Nat → BuiltIn
deriving DecidableEq, Repr

/-- Modelled from the spec: `spirv::ExecutionModel`.  The backend recognises
Vertex, Fragment and GLCompute; every other model is collapsed into `other`,
which the backend rejects uniformly with `UnsupportedExecutionModel`. -/
inductive ExecutionModel where
  | Vertex : ExecutionModel
  | Fragment : ExecutionModel
  | GLCompute : ExecutionModel
  | other : Nat → ExecutionModel
deriving DecidableEq, Repr

/-- Modelled from the spec: `spirv::StorageClass`.  The backend distinguishes
Input, Output and Uniform; the rest is collapsed into `other`. -/
inductive StorageClass where
  | Input : StorageClass
  | Output : StorageClass
  | Uniform : StorageClass
  | other : Nat → StorageClass
deriving DecidableEq, Repr

/-- Modelled from the spec: `crate::ScalarKind`. -/
inductive ScalarKind where
  | Float : ScalarKind
  | Sint : ScalarKind
  | Uint : ScalarKind
deriving DecidableEq, Repr

/-- Modelled from the spec: `crate::VectorSize`. -/
inductive VectorSize where
  | Bi : VectorSize
  | Tri : VectorSize
  | Quad : VectorSize
deriving DecidableEq, Repr

/-- Modelled from the spec: `crate::Type`.  Tokens (`crate::Token<T>`) are
arena indices, modelled as `Nat`. -/
inductive Ty where
  | Void : Ty
  | Scalar : ScalarKind → Ty
  | Vector : VectorSize → ScalarKind → Ty
  | Matrix : VectorSize → VectorSize → ScalarKind → Ty
  | Pointer : Nat → Ty
  | Array : Nat → Ty
  | Struct : Nat → Ty
deriving DecidableEq, Repr, Inhabited

/-- Modelled from the spec: `crate::Binding` — BuiltIn(kind), Location(index),
Descriptor{set, binding}. -/
inductive Binding where
  | BuiltIn : BuiltIn → Binding
  | Location : Nat → Binding
  | Descriptor : Nat → Nat → Binding
deriving DecidableEq, Repr

/-- `BindTarget` from `src/back/msl.rs` (slot indices are `u8` in the source). -/
structure BindTarget where
  buffer : Option Nat
  texture : Option Nat
  sampler : Option Nat
deriving DecidableEq, Repr

/-- `BindSource` from `src/back/msl.rs` (`set`, `binding` are `spirv::Word`). -/
structure BindSource where
  set : Nat
  binding : Nat
deriving DecidableEq, Repr

/-- `ResolvedBinding` from `src/back/msl.rs`.  `User` carries the static
prefix string and the index. -/
inductive ResolvedBinding where
  | BuiltIn : BuiltIn → ResolvedBinding
  | Attribute : Nat → ResolvedBinding
  | Color : Nat → ResolvedBinding
  | User : String → Nat → ResolvedBinding
  | Resource : BindTarget → ResolvedBinding
deriving DecidableEq, Repr

/-- `Error` from `src/back/msl.rs`.  `Format` wraps `std::fmt::Error`, a unit
struct.  Token payloads are arena indices. -/
inductive Error where
  | Format : Error
  | UnsupportedExecutionModel : ExecutionModel → Error
  | MixedExecutionModels : Nat → Error
  | MissingBinding : Nat → Error
  | MissingBindTarget : BindSource → Error
  | BadName : String → Error
deriving DecidableEq, Repr

/-- `LocationMode` from `src/back/msl.rs`. -/
inductive LocationMode where
  | VertexInput : LocationMode
  | FragmentOutput : LocationMode
  | Intermediate : LocationMode
deriving DecidableEq, Repr

/-- Result of a backend computation: `ok` and `err` are the two sides of the
Rust `Result<_, Error>`; `fatal` models a Rust panic (`panic!` or
`unimplemented!`), which aborts without returning anything to the caller. -/
inductive Res (α : Type) where
  | ok : α → Res α
  | err : Error → Res α
  | fatal : Res α
deriving DecidableEq, Repr

/-- `Option::ok_or` lifted to `Res` (models `opt.ok_or(e)?`). -/
def Res.ofOption (e : Error) : Option α → Res α
  | some a => Res.ok a
  | none => Res.err e

/-- `BindingMap` (a `FastHashMap<BindSource, BindTarget>` in the source),
modelled as an association list with first-match lookup; hash map keys are
unique, so first-match agrees with the map lookup. -/
def BindingMap := List (BindSource × BindTarget)

/-- `HashMap::get` on the modelled binding map. -/
def bmLookup : List (BindSource × BindTarget) → BindSource → Option BindTarget
  | [], _ => none
  | (k, v) :: rest, s => if k = s then some v else bmLookup rest s

/-- `Options` from `src/back/msl.rs` (the lifetime on the borrowed map is
irrelevant to the embedding). -/
structure Options where
  binding_map : List (BindSource × BindTarget)
deriving DecidableEq, Repr

/-- `Options::resolve_binding` from `src/back/msl.rs` lines 76-97, translated
arm by arm. -/
def Options.resolve_binding (o : Options) (b : Binding) (mode : LocationMode) :
    Res ResolvedBinding :=
  match b with
  | Binding.BuiltIn built_in => Res.ok (ResolvedBinding.BuiltIn built_in)
  | Binding.Location index =>
    Res.ok (match mode with
      | LocationMode.VertexInput => ResolvedBinding.Attribute index
      | LocationMode.FragmentOutput => ResolvedBinding.Color index
      | LocationMode.Intermediate => ResolvedBinding.User "loc" index)
  | Binding.Descriptor set binding =>
    let source : BindSource := { set := set, binding := binding }
    match bmLookup o.binding_map source with
    | some target => Res.ok (ResolvedBinding.Resource target)
    | none => Res.err (Error.MissingBindTarget source)

/-- `RESERVED_NAMES` from `src/back/msl.rs`. -/
def RESERVED_NAMES : List String := ["main"]

/-- `NameSource` from `src/back/msl.rs`; `Custom` carries the name and the
prefix-style flag (`prefix: bool` in the source). -/
inductive NameSource where
  | Custom : String → Bool → NameSource
  | Index : Nat → NameSource
deriving DecidableEq, Repr

/-- `Name` from `src/back/msl.rs`; `class` is a Lean keyword, so the field is
spelled `cls`. -/
structure Name where
  cls : String
  source : NameSource
deriving DecidableEq, Repr

/-- `impl Display for Name` from `src/back/msl.rs` lines 164-178.  The
prefix-style arm performs `name.split_at(1)` and uppercases the head: that is
faithful for the ASCII names this backend handles; on an empty custom name the
source would panic, but `or_index` (the only constructor of custom names in
the pass) guards `!name.is_empty()`, so that case is unreachable. -/
def Name.fmt (n : Name) : String :=
  match n.source with
  | NameSource.Custom name false =>
    if RESERVED_NAMES.contains name then name ++ "_" else name
  | NameSource.Custom name true =>
    match name.data with
    | [] => n.cls
    | c :: cs => n.cls ++ String.mk (Char.toUpper c :: cs)
  | NameSource.Index index => n.cls ++ toString index

/-- `AsName::or_index` for `Option<String>`, lines 191-201: an author name
that is present and non-empty yields a `Custom` source (with the entity kind's
prefix-style flag), anything else falls back to the generated index name.
`cls` and `prefixStyle` are the `CLASS` / `PREFIX` constants of the relevant
`Indexed` impl, passed explicitly. -/
def or_index (name : Option String) (cls : String) (prefixStyle : Bool)
    (index : Nat) : Name :=
  { cls := cls,
    source :=
      match name with
      | some nm =>
        if nm.isEmpty then NameSource.Index index
        else NameSource.Custom nm prefixStyle
      | none => NameSource.Index index }

/-- `scalar_kind_string` from `src/back/msl.rs`. -/
def scalar_kind_string : ScalarKind → String
  | ScalarKind.Float => "float"
  | ScalarKind.Sint => "signed int"
  | ScalarKind.Uint => "unsigned int"

/-- `vector_size_string` from `src/back/msl.rs`. -/
def vector_size_string : VectorSize → String
  | VectorSize.Bi => "2"
  | VectorSize.Tri => "3"
  | VectorSize.Quad => "4"

/-- `impl Display for ResolvedBinding`, lines 266-300.  Note the source's
`Resource` arm: a populated `texture` slot is formatted with `buffer(..)`
syntax (lines 290-291 of the source); the embedding reproduces the source
verbatim.  The unknown-built-in arm and the no-slot arm panic
(`panic!` / `unimplemented!`), modelled by `Res.fatal`. -/
def ResolvedBinding.fmt : ResolvedBinding → Res String
  | ResolvedBinding.BuiltIn built_in =>
    match built_in with
    | BuiltIn.ClipDistance => Res.ok "clip_distance"
    | BuiltIn.PointSize => Res.ok "point_size"
    | BuiltIn.Position => Res.ok "position"
    | BuiltIn.other _ => Res.fatal
  | ResolvedBinding.Attribute index =>
    Res.ok ("attribute(" ++ toString index ++ ")")
  | ResolvedBinding.Color index =>
    Res.ok ("color(" ++ toString index ++ ")")
  | ResolvedBinding.User pfx index =>
    Res.ok ("user(" ++ pfx ++ toString index ++ ")")
  | ResolvedBinding.Resource target =>
    match target.buffer with
    | some id => Res.ok ("buffer(" ++ toString id ++ ")")
    | none =>
      match target.texture with
      | some id => Res.ok ("buffer(" ++ toString id ++ ")")
      | none =>
        match target.sampler with
        | some id => Res.ok ("sampler(" ++ toString id ++ ")")
        | none => Res.fatal

/-- Modelled from the spec: `crate::PointerDeclaration` {storage class, base
type, optional name}. -/
structure PointerDeclaration where
  storage_class : StorageClass
  base : Ty
  name : Option String
deriving DecidableEq, Repr

/-- Modelled from the spec: `crate::ArrayDeclaration` {base type, length,
optional name}. -/
structure ArrayDeclaration where
  base : Ty
  length : Nat
  name : Option String
deriving DecidableEq, Repr

/-- Modelled from the spec: a struct member {type, optional Binding, optional
name}. -/
structure StructMember where
  ty : Ty
  binding : Option Binding
  name : Option String
deriving DecidableEq, Repr

/-- Modelled from the spec: `crate::StructDeclaration` {ordered members,
optional name}. -/
structure StructDeclaration where
  members : List StructMember
  name : Option String
deriving DecidableEq, Repr

/-- Modelled from the spec: `crate::ComplexTypes` — the three type arenas. -/
structure ComplexTypes where
  pointers : List PointerDeclaration
  arrays : List ArrayDeclaration
  structs : List StructDeclaration
deriving DecidableEq, Repr

/-- Modelled from the spec: `crate::GlobalVariable` {type, storage class,
optional Binding, optional name}. -/
structure GlobalVariable where
  ty : Ty
  storage_class : StorageClass
  binding : Option Binding
  name : Option String
deriving DecidableEq, Repr

/-- Modelled from the spec: `crate::Expression`; only the
`GlobalVariable(token)` variant matters to this backend, the remaining
variants are collapsed into `other`. -/
inductive Expression where
  | GlobalVariable : Nat → Expression
  | other : Nat → Expression
deriving DecidableEq, Repr

/-- Modelled from the spec: `crate::Function` {optional name, return type,
ordered parameter types, arena of expressions}. -/
structure Function where
  name : Option String
  return_type : Ty
  parameter_types : List Ty
  expressions : List Expression
deriving DecidableEq, Repr

/-- Modelled from the spec: `crate::EntryPoint` {execution model, function
token, input variable tokens, output variable tokens}.  The token sets are
hash sets in the source; they are modelled as lists and deduplicated on
insertion (`extendSet`). -/
structure EntryPoint where
  exec_model : ExecutionModel
  function : Nat
  inputs : List Nat
  outputs : List Nat
deriving DecidableEq, Repr

/-- Modelled from the spec: `crate::Module` — the type arenas, the global
variable arena, the function arena and the entry point list. -/
structure Module where
  complex_types : ComplexTypes
  global_variables : List GlobalVariable
  functions : List Function
  entry_points : List EntryPoint
deriving DecidableEq, Repr

/-- Arena indexing `cts.pointers[token]`.  Tokens are valid per the spec's
arena invariants (section 3); out-of-range access (a Rust index panic) is
outside every verified statement, so a total default-read keeps the
definitions executable. -/
def ComplexTypes.ptr (cts : ComplexTypes) (t : Nat) : PointerDeclaration :=
  cts.pointers.getD t { storage_class := StorageClass.other 0, base := Ty.Void, name := none }

/-- Arena indexing `cts.arrays[token]` (see `ComplexTypes.ptr`). -/
def ComplexTypes.arr (cts : ComplexTypes) (t : Nat) : ArrayDeclaration :=
  cts.arrays.getD t { base := Ty.Void, length := 0, name := none }

/-- Arena indexing `cts.structs[token]` (see `ComplexTypes.ptr`). -/
def ComplexTypes.str (cts : ComplexTypes) (t : Nat) : StructDeclaration :=
  cts.structs.getD t { members := [], name := none }

/-- Arena indexing `module.global_variables[token]` (see `ComplexTypes.ptr`). -/
def Module.gvar (m : Module) (t : Nat) : GlobalVariable :=
  m.global_variables.getD t
    { ty := Ty.Void, storage_class := StorageClass.other 0, binding := none, name := none }

/-- `TypedVar` display, lines 210-240: renders a type followed by the given
variable name.  The `Indexed` impls supply class labels "Pointer" / "Array" /
"Struct" with `PREFIX = false`. -/
def typedVar (cts : ComplexTypes) (ty : Ty) (v : String) : String :=
  match ty with
  | Ty.Void => "void " ++ v
  | Ty.Scalar kind => scalar_kind_string kind ++ " " ++ v
  | Ty.Vector size kind =>
    scalar_kind_string kind ++ vector_size_string size ++ " " ++ v
  | Ty.Matrix columns rows kind =>
    scalar_kind_string kind ++ vector_size_string columns ++ "x" ++
      vector_size_string rows ++ " " ++ v
  | Ty.Pointer token =>
    Name.fmt (or_index (cts.ptr token).name "Pointer" false token) ++ " " ++ v
  | Ty.Array token =>
    Name.fmt (or_index (cts.arr token).name "Array" false token) ++ " " ++ v
  | Ty.Struct token =>
    Name.fmt (or_index (cts.str token).name "Struct" false token) ++ " " ++ v

/-- `TypedGlobalVariable` display, lines 242-264: global variables must be
pointer-typed (anything else panics, `Res.fatal`); pointers of Input/Output
class are unwrapped to their base type.  Class label "global",
`PREFIX = false`. -/
def typedGlobalVariable (m : Module) (token : Nat) : Res String :=
  let var := m.gvar token
  let name := Name.fmt (or_index var.name "global" false token)
  match var.ty with
  | Ty.Pointer pt =>
    let decl := m.complex_types.ptr pt
    let ty := match decl.storage_class with
      | StorageClass.Input => decl.base
      | StorageClass.Output => decl.base
      | _ => var.ty
    Res.ok (typedVar m.complex_types ty name)
  | _ => Res.fatal

/-- `NAME_INPUT` from `src/back/msl.rs`. -/
def NAME_INPUT : String := "input"

/-- `NAME_OUTPUT` from `src/back/msl.rs`. -/
def NAME_OUTPUT : String := "output"

/-- One iteration of the pointer-typedef loop, lines 333-353: Input/Output
pointers are skipped, Uniform maps to the "constant" qualifier (any other
class logs a warning and emits an empty qualifier), a struct pointee gets a
forward declaration, then the typedef itself; the pointer name is wrapped by
`Starred` (a leading `*`). -/
def writePointerDecl (cts : ComplexTypes) (token : Nat)
    (decl : PointerDeclaration) (buf : String) : String :=
  let name := "*" ++ Name.fmt (or_index decl.name "Pointer" false token)
  match decl.storage_class with
  | StorageClass.Input => buf
  | StorageClass.Output => buf
  | cls =>
    let clsStr := match cls with
      | StorageClass.Uniform => "constant"
      | _ => ""
    let buf := match decl.base with
      | Ty.Struct st =>
        buf ++ "struct " ++ Name.fmt (or_index (cts.str st).name "Struct" false st) ++
          "; //forward decl\n"
      | _ => buf
    buf ++ "typedef " ++ clsStr ++ " " ++ typedVar cts decl.base name ++ ";\n"

/-- The pointer-typedef loop over the arena, carrying the arena index. -/
def writePointerDecls (cts : ComplexTypes) (token : Nat)
    (decls : List PointerDeclaration) (buf : String) : String :=
  match decls with
  | [] => buf
  | decl :: rest => writePointerDecls cts (token + 1) rest (writePointerDecl cts token decl buf)

/-- The array-typedef loop, lines 354-358. -/
def writeArrayDecls (cts : ComplexTypes) (token : Nat)
    (decls : List ArrayDeclaration) (buf : String) : String :=
  match decls with
  | [] => buf
  | decl :: rest =>
    let name := Name.fmt (or_index decl.name "Array" false token)
    writeArrayDecls cts (token + 1) rest
      (buf ++ "typedef " ++ typedVar cts decl.base name ++ "[" ++
        toString decl.length ++ "];\n")

/-- One member of a struct declaration, lines 361-370: the member line plus an
optional attribute tag, with the binding resolved at `Intermediate` mode.
Member class label is "field". -/
def writeStructMember (cts : ComplexTypes) (o : Options) (index : Nat)
    (member : StructMember) (buf : String) : Res String :=
  let name := Name.fmt (or_index member.name "field" false index)
  let tv := typedVar cts member.ty name
  let buf := buf ++ "\t" ++ tv
  match member.binding with
  | none => Res.ok (buf ++ ";\n")
  | some binding =>
    match o.resolve_binding binding LocationMode.Intermediate with
    | Res.err e => Res.err e
    | Res.fatal => Res.fatal
    | Res.ok resolved =>
      match resolved.fmt with
      | Res.err e => Res.err e
      | Res.fatal => Res.fatal
      | Res.ok rs => Res.ok (buf ++ " [[" ++ rs ++ "]]" ++ ";\n")

/-- The member loop of one struct declaration, carrying the member index. -/
def writeStructMembers (cts : ComplexTypes) (o : Options) (index : Nat)
    (members : List StructMember) (buf : String) : Res String :=
  match members with
  | [] => Res.ok buf
  | member :: rest =>
    match writeStructMember cts o index member buf with
    | Res.err e => Res.err e
    | Res.fatal => Res.fatal
    | Res.ok buf => writeStructMembers cts o (index + 1) rest buf

/-- The struct-declaration loop, lines 359-372. -/
def writeStructDecls (cts : ComplexTypes) (o : Options) (token : Nat)
    (decls : List StructDeclaration) (buf : String) : Res String :=
  match decls with
  | [] => Res.ok buf
  | decl :: rest =>
    let buf := buf ++ "struct " ++ Name.fmt (or_index decl.name "Struct" false token) ++
      " \x7b\n"
    match writeStructMembers cts o 0 decl.members buf with
    | Res.err e => Res.err e
    | Res.fatal => Res.fatal
    | Res.ok buf => writeStructDecls cts o (token + 1) rest (buf ++ "\x7d;\n")

/-- Insertion into a modelled hash set: duplicate-free list, insertion order. -/
def insertUnique (l : List Nat) (x : Nat) : List Nat :=
  if l.contains x then l else l ++ [x]

/-- `HashSet::extend` on the modelled set. -/
def extendSet (l : List Nat) (xs : List Nat) : List Nat :=
  xs.foldl insertUnique l

/-- The entry-point scan of `Writer::write`, lines 378-393, for one function
token: accumulate the union of matching entry points' inputs and outputs and
the (unique) execution model, failing with `MixedExecutionModels` when two
matching entry points disagree. -/
def collectEntryGo (ft : Nat) (eps : List EntryPoint)
    (exec_model : Option ExecutionModel) (ins outs : List Nat) :
    Res (Option ExecutionModel × List Nat × List Nat) :=
  match eps with
  | [] => Res.ok (exec_model, ins, outs)
  | ep :: rest =>
    if ep.function = ft then
      let ins := extendSet ins ep.inputs
      let outs := extendSet outs ep.outputs
      match exec_model with
      | some m =>
        if m = ep.exec_model then collectEntryGo ft rest (some m) ins outs
        else Res.err (Error.MixedExecutionModels ft)
      | none => collectEntryGo ft rest (some ep.exec_model) ins outs
    else collectEntryGo ft rest exec_model ins outs

/-- The entry-point scan started from the empty state (lines 378-380). -/
def collectEntryInfo (ft : Nat) (eps : List EntryPoint) :
    Res (Option ExecutionModel × List Nat × List Nat) :=
  collectEntryGo ft eps none [] []

/-- The stage table of lines 398-403: stage keyword, input location mode and
output location mode per execution model; any other model fails with
`UnsupportedExecutionModel`. -/
def stageModes : ExecutionModel → Res (String × LocationMode × LocationMode)
  | ExecutionModel.Vertex =>
    Res.ok ("vertex", LocationMode.VertexInput, LocationMode.Intermediate)
  | ExecutionModel.Fragment =>
    Res.ok ("fragment", LocationMode.Intermediate, LocationMode.FragmentOutput)
  | ExecutionModel.GLCompute =>
    Res.ok ("compute", LocationMode.Intermediate, LocationMode.Intermediate)
  | ExecutionModel.other n =>
    Res.err (Error.UnsupportedExecutionModel (ExecutionModel.other n))

/-- One member of the synthesized Input struct, lines 404-413: the typed
global variable (panics if not pointer-typed) plus an optional attribute tag
resolved at the stage's input mode. -/
def writeInputVar (m : Module) (o : Options) (in_mode : LocationMode)
    (token : Nat) (buf : String) : Res String :=
  let var := m.gvar token
  match typedGlobalVariable m token with
  | Res.err e => Res.err e
  | Res.fatal => Res.fatal
  | Res.ok tyvar =>
    let buf := buf ++ "\t" ++ tyvar
    match var.binding with
    | none => Res.ok (buf ++ ";\n")
    | some binding =>
      match o.resolve_binding binding in_mode with
      | Res.err e => Res.err e
      | Res.fatal => Res.fatal
      | Res.ok resolved =>
        match resolved.fmt with
        | Res.err e => Res.err e
        | Res.fatal => Res.fatal
        | Res.ok rs => Res.ok (buf ++ " [[" ++ rs ++ "]]" ++ ";\n")

/-- The Input-struct member loop over the collected input tokens. -/
def writeInputVars (m : Module) (o : Options) (in_mode : LocationMode)
    (tokens : List Nat) (buf : String) : Res String :=
  match tokens with
  | [] => Res.ok buf
  | token :: rest =>
    match writeInputVar m o in_mode token buf with
    | Res.err e => Res.err e
    | Res.fatal => Res.fatal
    | Res.ok buf => writeInputVars m o in_mode rest buf

/-- One lifted member line of the synthesized Output struct, lines 422-430:
the member's name and type, then its binding — mandatory here, a missing one
fails with `MissingBinding` carrying the *output variable's* token — resolved
at the stage's output mode.  Produces just the line; the loop appends it. -/
def liftedMemberLine (cts : ComplexTypes) (o : Options) (out_mode : LocationMode)
    (vtoken : Nat) (index : Nat) (member : StructMember) : Res String :=
  let name := Name.fmt (or_index member.name "field" false index)
  let tv := typedVar cts member.ty name
  match Res.ofOption (Error.MissingBinding vtoken) member.binding with
  | Res.err e => Res.err e
  | Res.fatal => Res.fatal
  | Res.ok binding =>
    match o.resolve_binding binding out_mode with
    | Res.err e => Res.err e
    | Res.fatal => Res.fatal
    | Res.ok resolved =>
      match resolved.fmt with
      | Res.err e => Res.err e
      | Res.fatal => Res.fatal
      | Res.ok rs => Res.ok ("\t" ++ tv ++ " [[" ++ rs ++ "]];\n")

/-- The lifting loop over a struct-typed output variable's members (the
`for (index, member)` loop of lines 422-430), appending each member's line. -/
def writeLiftedMembers (cts : ComplexTypes) (o : Options) (out_mode : LocationMode)
    (vtoken : Nat) (index : Nat) (members : List StructMember) (buf : String) :
    Res String :=
  match members with
  | [] => Res.ok buf
  | member :: rest =>
    match liftedMemberLine cts o out_mode vtoken index member with
    | Res.err e => Res.err e
    | Res.fatal => Res.fatal
    | Res.ok line => writeLiftedMembers cts o out_mode vtoken (index + 1) rest (buf ++ line)

/-- The non-lifted output member, lines 434-440 (same shape as an input
member but resolved at the output mode). -/
def writeOutputDirect (m : Module) (o : Options) (out_mode : LocationMode)
    (token : Nat) (buf : String) : Res String :=
  let var := m.gvar token
  match typedGlobalVariable m token with
  | Res.err e => Res.err e
  | Res.fatal => Res.fatal
  | Res.ok tyvar =>
    let buf := buf ++ "\t" ++ tyvar
    match var.binding with
    | none => Res.ok (buf ++ ";\n")
    | some binding =>
      match o.resolve_binding binding out_mode with
      | Res.err e => Res.err e
      | Res.fatal => Res.fatal
      | Res.ok resolved =>
        match resolved.fmt with
        | Res.err e => Res.err e
        | Res.fatal => Res.fatal
        | Res.ok rs => Res.ok (buf ++ " [[" ++ rs ++ "]]" ++ ";\n")

/-- One member of the synthesized Output struct, lines 416-441: a variable
whose type is a pointer to a struct has all of that struct's members lifted to
the root aggregate (the source's `continue` path); everything else is emitted
directly. -/
def writeOutputVar (m : Module) (o : Options) (out_mode : LocationMode)
    (token : Nat) (buf : String) : Res String :=
  let var := m.gvar token
  match var.ty with
  | Ty.Pointer pt =>
    match (m.complex_types.ptr pt).base with
    | Ty.Struct st =>
      writeLiftedMembers m.complex_types o out_mode token 0
        (m.complex_types.str st).members buf
    | _ => writeOutputDirect m o out_mode token buf
  | _ => writeOutputDirect m o out_mode token buf

/-- The Output-struct member loop over the collected output tokens. -/
def writeOutputVars (m : Module) (o : Options) (out_mode : LocationMode)
    (tokens : List Nat) (buf : String) : Res String :=
  match tokens with
  | [] => Res.ok buf
  | token :: rest =>
    match writeOutputVar m o out_mode token buf with
    | Res.err e => Res.err e
    | Res.fatal => Res.fatal
    | Res.ok buf => writeOutputVars m o out_mode rest buf

/-- The parameter loop of a non-entry function, lines 453-457: positional
names via `Name::from(ParameterIndex(index))` (class "param"). -/
def writeParams (cts : ComplexTypes) (index : Nat) (tys : List Ty)
    (buf : String) : String :=
  match tys with
  | [] => buf
  | ty :: rest =>
    let name := Name.fmt { cls := "param", source := NameSource.Index index }
    writeParams cts (index + 1) rest (buf ++ "\t" ++ typedVar cts ty name ++ ",\n")

/-- The uniform-parameter injection loop, lines 459-468: scan the function's
expression arena; a global of Uniform storage class not yet in the module-wide
`uniforms_used` set is inserted into the set and emitted as one parameter
line.  The set is threaded in and out — it is NOT reset per function. -/
def uniformParams (m : Module) (exprs : List Expression) (buf : String)
    (used : List Nat) : Res (String × List Nat) :=
  match exprs with
  | [] => Res.ok (buf, used)
  | Expression.GlobalVariable token :: rest =>
    let var := m.gvar token
    if var.storage_class = StorageClass.Uniform ∧ ¬ used.contains token then
      match typedGlobalVariable m token with
      | Res.err e => Res.err e
      | Res.fatal => Res.fatal
      | Res.ok tv =>
        uniformParams m rest (buf ++ ("\t" ++ tv ++ ",\n")) (used ++ [token])
    else uniformParams m rest buf used
  | Expression.other _ :: rest => uniformParams m rest buf used

/-- Everything `Writer::write` emits for one function up to and including the
trailing dummy parameter (lines 377-483): the entry-point scan, the
Input/Output struct synthesis and stage keyword for entry functions, the
signature line, the parameter lists, the uniform injection and the
stage-specific trailing parameter.  The function's Input/Output aggregate
names use prefix-style classes "Input"/"Output"; the function name itself uses
class "function". -/
def writeFunctionSig (m : Module) (o : Options) (ft : Nat) (f : Function)
    (buf : String) (used : List Nat) : Res (String × List Nat) :=
  match collectEntryInfo ft m.entry_points with
  | Res.err e => Res.err e
  | Res.fatal => Res.fatal
  | Res.ok (exec_model, var_inputs, var_outputs) =>
    let input_name := Name.fmt (or_index f.name "Input" true ft)
    let output_name := Name.fmt (or_index f.name "Output" true ft)
    let structsRes : Res String :=
      match exec_model with
      | some em =>
        let buf := buf ++ "struct " ++ input_name ++ " \x7b\n"
        match stageModes em with
        | Res.err e => Res.err e
        | Res.fatal => Res.fatal
        | Res.ok (em_str, in_mode, out_mode) =>
          match writeInputVars m o in_mode var_inputs buf with
          | Res.err e => Res.err e
          | Res.fatal => Res.fatal
          | Res.ok buf =>
            let buf := buf ++ "\x7d;\n" ++ "struct " ++ output_name ++ " \x7b\n"
            match writeOutputVars m o out_mode var_outputs buf with
            | Res.err e => Res.err e
            | Res.fatal => Res.fatal
            | Res.ok buf => Res.ok (buf ++ "\x7d;\n" ++ em_str ++ " ")
      | none => Res.ok buf
    match structsRes with
    | Res.err e => Res.err e
    | Res.fatal => Res.fatal
    | Res.ok buf =>
      let fun_name := Name.fmt (or_index f.name "function" false ft)
      let buf :=
        match exec_model with
        | some _ =>
          buf ++ output_name ++ " " ++ fun_name ++ "(\n" ++
            "\t" ++ input_name ++ " " ++ NAME_INPUT ++ " [[stage_in]],\n"
        | none =>
          writeParams m.complex_types 0 f.parameter_types
            (buf ++ typedVar m.complex_types f.return_type fun_name ++ "(\n")
      match uniformParams m f.expressions buf used with
      | Res.err e => Res.err e
      | Res.fatal => Res.fatal
      | Res.ok (buf, used) =>
        let buf := buf ++
          (match exec_model with
           | some ExecutionModel.Vertex => "\tunsigned _dummy [[vertex_id]]\n"
           | some ExecutionModel.Fragment => "\tbool _dummy [[front_facing]]\n"
           | some ExecutionModel.GLCompute => "\tunsigned _dummy [[threads_per_grid]]\n"
           | _ => "\tint _dummy\n")
        Res.ok (buf, used)

/-- One whole function, lines 377-488: the signature part followed by the
fixed body stub of lines 484-487, which always declares a default-valued local
of the *output-struct name* called `output` and returns it. -/
def writeFunction (m : Module) (o : Options) (ft : Nat) (f : Function)
    (buf : String) (used : List Nat) : Res (String × List Nat) :=
  let output_name := Name.fmt (or_index f.name "Output" true ft)
  match writeFunctionSig m o ft f buf used with
  | Res.err e => Res.err e
  | Res.fatal => Res.fatal
  | Res.ok (buf, used) =>
    Res.ok (buf ++ ") \x7b\n" ++ "\t" ++ output_name ++ " " ++ NAME_OUTPUT ++ ";\n" ++
      "\treturn " ++ NAME_OUTPUT ++ ";\n" ++ "\x7d\n", used)

/-- The function loop of `Writer::write`, threading the output buffer and the
module-wide `uniforms_used` set through every function in arena order. -/
def writeFunctions (m : Module) (o : Options) (ft : Nat) (funs : List Function)
    (buf : String) (used : List Nat) : Res String :=
  match funs with
  | [] => Res.ok buf
  | f :: rest =>
    match writeFunction m o ft f buf used with
    | Res.err e => Res.err e
    | Res.fatal => Res.fatal
    | Res.ok (buf, used) => writeFunctions m o (ft + 1) rest buf used

/-- `Writer::write`, lines 326-491, threading `self.out` explicitly: the
preamble, the type declarations, then the functions.  Writing into a `String`
buffer never raises the `Format` error, so the only failures are the
structured errors and panics of the emission itself. -/
def Writer.write (out : String) (m : Module) (o : Options) : Res String :=
  let buf := out ++ "#include <metal_stdlib>\n" ++ "#include <simd/simd.h>\n" ++
    "using namespace metal;\n"
  let buf := buf ++ "\n"
  let buf := writePointerDecls m.complex_types 0 m.complex_types.pointers buf
  let buf := writeArrayDecls m.complex_types 0 m.complex_types.arrays buf
  match writeStructDecls m.complex_types o 0 m.complex_types.structs buf with
  | Res.err e => Res.err e
  | Res.fatal => Res.fatal
  | Res.ok buf =>
    let buf := buf ++ "\n"
    writeFunctions m o 0 m.functions buf []

/-- `write_string`, lines 494-498: run the writer on a fresh empty buffer and
hand the complete buffer to the caller only on success; an error is returned
as such, with the partially filled buffer dropped. -/
def write_string (m : Module) (o : Options) : Res String :=
  match Writer.write "" m o with
  | Res.ok out => Res.ok out
  | Res.err e => Res.err e
  | Res.fatal => Res.fatal

/-! ## Claim theorems -/

/-- C6: for every `Location(i)` binding and every index `i`, resolution yields
`attribute(i)` under VertexInput mode, `color(i)` under FragmentOutput mode and
`user(loc<i>)` under Intermediate mode, and it never fails for a Location
binding (each resolution is an `ok`, and each resolved value formats to the
stated attribute text). -/
theorem location_binding_resolution (o : Options) (i : Nat) :
    o.resolve_binding (Binding.Location i) LocationMode.VertexInput =
      Res.ok (ResolvedBinding.Attribute i) ∧
    o.resolve_binding (Binding.Location i) LocationMode.FragmentOutput =
      Res.ok (ResolvedBinding.Color i) ∧
    o.resolve_binding (Binding.Location i) LocationMode.Intermediate =
      Res.ok (ResolvedBinding.User "loc" i) ∧
    ResolvedBinding.fmt (ResolvedBinding.Attribute i) =
      Res.ok ("attribute(" ++ toString i ++ ")") ∧
    ResolvedBinding.fmt (ResolvedBinding.Color i) =
      Res.ok ("color(" ++ toString i ++ ")") ∧
    ResolvedBinding.fmt (ResolvedBinding.User "loc" i) =
      Res.ok ("user(" ++ "loc" ++ toString i ++ ")") :=
  ⟨rfl, rfl, rfl, rfl, rfl, rfl⟩

/-- C7: resolution fails with `MissingBindTarget src` exactly when the binding
is the descriptor `Descriptor{src.set, src.binding}` and that key is absent
from the caller-supplied map — so the error carries exactly the missing
(set, binding) pair and no other binding variant can produce it. -/
theorem missing_bind_target_characterisation (o : Options) (b : Binding)
    (mode : LocationMode) (src : BindSource) :
    o.resolve_binding b mode = Res.err (Error.MissingBindTarget src) ↔
      b = Binding.Descriptor src.set src.binding ∧
        bmLookup o.binding_map src = none := by
  obtain ⟨ss, sb⟩ := src
  cases b with
  | BuiltIn bi => simp [Options.resolve_binding]
  | Location i =>
    cases mode <;> simp [Options.resolve_binding]
  | Descriptor s t =>
    simp only [Options.resolve_binding]
    cases h : bmLookup o.binding_map ⟨s, t⟩ with
    | some tgt =>
      simp only [h]
      constructor
      · intro hh
        exact absurd hh (by simp)
      · rintro ⟨hbd, hnone⟩
        obtain ⟨rfl, rfl⟩ := Binding.Descriptor.inj hbd
        rw [h] at hnone
        cases hnone
    | none =>
      simp only [h]
      constructor
      · intro hh
        obtain ⟨rfl, rfl⟩ := BindSource.mk.inj (Error.MissingBindTarget.inj (Res.err.inj hh))
        exact ⟨rfl, h⟩
      · rintro ⟨hbd, _⟩
        obtain ⟨rfl, rfl⟩ := Binding.Descriptor.inj hbd
        rfl

/-- C8: an author-supplied, non-prefix-style name equal to the reserved
identifier "main" is emitted as "main_"; every other non-empty author name of
a non-prefix-style entity is emitted verbatim; a missing or empty author name
falls back to the generated `<class><index>` name. -/
theorem reserved_name_emission (cls : String) (idx : Nat) (s : String) :
    Name.fmt { cls := cls, source := NameSource.Custom "main" false } = "main_" ∧
    (s ≠ "main" →
      Name.fmt { cls := cls, source := NameSource.Custom s false } = s) ∧
    (∀ prefixStyle : Bool,
      or_index none cls prefixStyle idx =
        { cls := cls, source := NameSource.Index idx } ∧
      or_index (some "") cls prefixStyle idx =
        { cls := cls, source := NameSource.Index idx }) ∧
    Name.fmt { cls := cls, source := NameSource.Index idx } = cls ++ toString idx ∧
    (s ≠ "" → ∀ prefixStyle : Bool,
      or_index (some s) cls prefixStyle idx =
        { cls := cls, source := NameSource.Custom s prefixStyle }) := by
  refine ⟨rfl, ?_, ?_, rfl, ?_⟩
  · intro hs
    simp only [Name.fmt]
    rw [if_neg]
    intro hmem
    have : s = "main" := by simpa [RESERVED_NAMES] using hmem
    exact absurd this hs
  · intro prefixStyle
    exact ⟨rfl, rfl⟩
  · intro hs prefixStyle
    simp [or_index, String.isEmpty_iff, hs]

/-- C8 witness: at class "x", index 3 and the author name "foo", the
hypotheses of `reserved_name_emission` are satisfiable and the conclusions
evaluate as stated. -/
theorem reserved_name_emission_witness :
    Name.fmt { cls := "x", source := NameSource.Custom "main" false } = "main_" ∧
    Name.fmt { cls := "x", source := NameSource.Custom "foo" false } = "foo" ∧
    or_index none "x" false 3 = { cls := "x", source := NameSource.Index 3 } ∧
    Name.fmt { cls := "x", source := NameSource.Index 3 } = "x" ++ toString 3 :=
  ⟨(reserved_name_emission "x" 3 "foo").1,
   (reserved_name_emission "x" 3 "foo").2.1 (by decide),
   ((reserved_name_emission "x" 3 "foo").2.2.1 false).1,
   (reserved_name_emission "x" 3 "foo").2.2.2.1⟩

/-- C1: the code deviates from the claim on the texture slot — for a mapped
`BindTarget` whose only populated slot is `texture`, resolution succeeds with
the resource, but emission formats it with `buffer(id)` syntax instead of the
claimed `texture(id)` (source lines 290-291). -/
theorem texture_slot_emits_buffer_syntax :
    Options.resolve_binding { binding_map := [(⟨1, 2⟩, ⟨none, some 3, none⟩)] }
        (Binding.Descriptor 1 2) LocationMode.Intermediate =
      Res.ok (ResolvedBinding.Resource ⟨none, some 3, none⟩) ∧
    ResolvedBinding.fmt (ResolvedBinding.Resource ⟨none, some 3, none⟩) =
      Res.ok "buffer(3)" ∧
    ResolvedBinding.fmt (ResolvedBinding.Resource ⟨none, some 3, none⟩) ≠
      Res.ok "texture(3)" := by
  refine ⟨by decide, by decide, by decide⟩

/-- C10: a mapped `BindTarget` with no populated slot still resolves
successfully; the failure surfaces only at formatting time, as a fatal abort
(`unimplemented!`, modelled `Res.fatal`) and never as a structured `Error`. -/
theorem empty_bind_target_fatal_on_format (t : BindTarget) (o : Options)
    (s bnd : Nat) (mode : LocationMode)
    (hb : t.buffer = none) (ht : t.texture = none) (hsm : t.sampler = none)
    (hm : bmLookup o.binding_map ⟨s, bnd⟩ = some t) :
    o.resolve_binding (Binding.Descriptor s bnd) mode =
      Res.ok (ResolvedBinding.Resource t) ∧
    ResolvedBinding.fmt (ResolvedBinding.Resource t) = Res.fatal ∧
    (∀ e : Error, ResolvedBinding.fmt (ResolvedBinding.Resource t) ≠ Res.err e) := by
  have hfmt : ResolvedBinding.fmt (ResolvedBinding.Resource t) = Res.fatal := by
    simp [ResolvedBinding.fmt, hb, ht, hsm]
  refine ⟨?_, hfmt, ?_⟩
  · simp [Options.resolve_binding, hm]
  · intro e he
    rw [hfmt] at he
    cases he

/-- C10 witness: the all-empty target behind key (0, 0). -/
theorem empty_bind_target_fatal_on_format_witness :
    Options.resolve_binding { binding_map := [(⟨0, 0⟩, ⟨none, none, none⟩)] }
        (Binding.Descriptor 0 0) LocationMode.Intermediate =
      Res.ok (ResolvedBinding.Resource ⟨none, none, none⟩) ∧
    ResolvedBinding.fmt (ResolvedBinding.Resource ⟨none, none, none⟩) = Res.fatal :=
  ⟨(empty_bind_target_fatal_on_format ⟨none, none, none⟩
      { binding_map := [(⟨0, 0⟩, ⟨none, none, none⟩)] } 0 0 LocationMode.Intermediate
      rfl rfl rfl (by decide)).1,
   (empty_bind_target_fatal_on_format ⟨none, none, none⟩
      { binding_map := [(⟨0, 0⟩, ⟨none, none, none⟩)] } 0 0 LocationMode.Intermediate
      rfl rfl rfl (by decide)).2.1⟩

/-- Scan helper: once a model is recorded, any later matching entry point with
a different model makes the scan fail with `MixedExecutionModels`. -/
lemma collectEntryGo_err_of_mismatch (ft : Nat) (m : ExecutionModel) :
    ∀ (eps : List EntryPoint) (ins outs : List Nat),
      (∃ e ∈ eps, e.function = ft ∧ e.exec_model ≠ m) →
      collectEntryGo ft eps (some m) ins outs =
        Res.err (Error.MixedExecutionModels ft) := by
  intro eps
  induction eps with
  | nil =>
    intro ins outs h
    simp at h
  | cons ep rest ih =>
    intro ins outs h
    obtain ⟨e, he, hfun, hne⟩ := h
    by_cases hf : ep.function = ft
    · simp only [collectEntryGo, if_pos hf]
      by_cases hm : m = ep.exec_model
      · rw [if_pos hm]
        apply ih
        rcases List.mem_cons.mp he with heq | hmem
        · subst heq
          exact absurd hm.symm hne
        · exact ⟨e, hmem, hfun, hne⟩
      · rw [if_neg hm]
    · simp only [collectEntryGo, if_neg hf]
      apply ih
      rcases List.mem_cons.mp he with heq | hmem
      · subst heq
        exact absurd hfun hf
      · exact ⟨e, hmem, hfun, hne⟩

/-- Scan helper: when every matching entry point agrees with the recorded
model (if any) and with each other, the scan succeeds. -/
lemma collectEntryGo_ok_of_agree (ft : Nat) :
    ∀ (eps : List EntryPoint) (em : Option ExecutionModel) (ins outs : List Nat),
      (∀ ep ∈ eps, ep.function = ft → ∀ mm, em = some mm → ep.exec_model = mm) →
      (∀ e1 ∈ eps, ∀ e2 ∈ eps, e1.function = ft → e2.function = ft →
        e1.exec_model = e2.exec_model) →
      ∃ v, collectEntryGo ft eps em ins outs = Res.ok v := by
  intro eps
  induction eps with
  | nil =>
    intro em ins outs _ _
    exact ⟨_, rfl⟩
  | cons ep rest ih =>
    intro em ins outs hcur hpair
    have hpair' : ∀ e1 ∈ rest, ∀ e2 ∈ rest, e1.function = ft → e2.function = ft →
        e1.exec_model = e2.exec_model := by
      intro e1 h1 e2 h2
      exact hpair e1 (List.mem_cons_of_mem ep h1) e2 (List.mem_cons_of_mem ep h2)
    by_cases hf : ep.function = ft
    · cases em with
      | some mm =>
        have hmm : mm = ep.exec_model :=
          (hcur ep (List.mem_cons_self ep rest) hf mm rfl).symm
        simp only [collectEntryGo, if_pos hf, if_pos hmm]
        apply ih (some mm) _ _ _ hpair'
        intro ep' hmem hfun' mm' hsome
        obtain rfl : mm = mm' := Option.some.inj hsome
        rw [hmm]
        exact hpair ep' (List.mem_cons_of_mem ep hmem) ep
          (List.mem_cons_self ep rest) hfun' hf
      | none =>
        simp only [collectEntryGo, if_pos hf]
        apply ih (some ep.exec_model) _ _ _ hpair'
        intro ep' hmem hfun' mm' hsome
        obtain rfl : ep.exec_model = mm' := Option.some.inj hsome
        exact hpair ep' (List.mem_cons_of_mem ep hmem) ep
          (List.mem_cons_self ep rest) hfun' hf
    · simp only [collectEntryGo, if_neg hf]
      apply ih em _ _ _ hpair'
      intro ep' hmem hfun' mm' hsome
      exact hcur ep' (List.mem_cons_of_mem ep hmem) hfun' mm' hsome

/-- Scan helper: two matching entry points with different models make the
scan, started without a recorded model, fail with `MixedExecutionModels`. -/
lemma collectEntryGo_none_err (ft : Nat) :
    ∀ (eps : List EntryPoint) (ins outs : List Nat),
      (∃ e1 ∈ eps, ∃ e2 ∈ eps, e1.function = ft ∧ e2.function = ft ∧
        e1.exec_model ≠ e2.exec_model) →
      collectEntryGo ft eps none ins outs =
        Res.err (Error.MixedExecutionModels ft) := by
  intro eps
  induction eps with
  | nil =>
    intro ins outs h
    simp at h
  | cons ep rest ih =>
    intro ins outs h
    obtain ⟨e1, he1, e2, he2, hf1, hf2, hne⟩ := h
    by_cases hf : ep.function = ft
    · simp only [collectEntryGo, if_pos hf]
      apply collectEntryGo_err_of_mismatch
      rcases List.mem_cons.mp he1 with h1 | h1 <;>
        rcases List.mem_cons.mp he2 with h2 | h2
      · subst h1
        subst h2
        exact absurd rfl hne
      · subst h1
        exact ⟨e2, h2, hf2, fun hh => hne hh.symm⟩
      · subst h2
        exact ⟨e1, h1, hf1, hne⟩
      · by_cases hx : e1.exec_model = ep.exec_model
        · refine ⟨e2, h2, hf2, fun hh => hne ?_⟩
          rw [hx, hh]
        · exact ⟨e1, h1, hf1, hx⟩
    · simp only [collectEntryGo, if_neg hf]
      apply ih
      rcases List.mem_cons.mp he1 with h1 | h1
      · subst h1
        exact absurd hf1 hf
      · rcases List.mem_cons.mp he2 with h2 | h2
        · subst h2
          exact absurd hf2 hf
        · exact ⟨e1, h1, e2, h2, hf1, hf2, hne⟩

/-- C2: a function targeted by two entry points whose execution models differ
makes the per-function emission of the write pass fail with
`MixedExecutionModels` carrying that function's token (the failure is raised
by the entry-point scan, before anything else of the function is emitted);
when all entry points targeting the function agree on one execution model,
the scan succeeds and no such error is raised. -/
theorem mixed_execution_models (m : Module) (o : Options) (ft : Nat)
    (f : Function) (buf : String) (used : List Nat) :
    ((∃ e1 ∈ m.entry_points, ∃ e2 ∈ m.entry_points,
        e1.function = ft ∧ e2.function = ft ∧ e1.exec_model ≠ e2.exec_model) →
      writeFunction m o ft f buf used = Res.err (Error.MixedExecutionModels ft)) ∧
    ((∀ e1 ∈ m.entry_points, ∀ e2 ∈ m.entry_points,
        e1.function = ft → e2.function = ft → e1.exec_model = e2.exec_model) →
      ∃ v, collectEntryInfo ft m.entry_points = Res.ok v) := by
  constructor
  · intro hmix
    have hc : collectEntryInfo ft m.entry_points =
        Res.err (Error.MixedExecutionModels ft) :=
      collectEntryGo_none_err ft m.entry_points [] [] hmix
    simp only [writeFunction, writeFunctionSig, hc]
  · intro hagree
    exact collectEntryGo_ok_of_agree ft m.entry_points none [] []
      (by intro ep _ _ mm hsome; cases hsome) hagree

/-- C2 witness: one function token targeted by a Vertex and a Fragment entry
point; the per-function emission fails with `MixedExecutionModels 0`. -/
theorem mixed_execution_models_witness :
    writeFunction
        { complex_types := { pointers := [], arrays := [], structs := [] },
          global_variables := [], functions := [⟨none, Ty.Void, [], []⟩],
          entry_points := [⟨ExecutionModel.Vertex, 0, [], []⟩,
            ⟨ExecutionModel.Fragment, 0, [], []⟩] }
        { binding_map := [] } 0 ⟨none, Ty.Void, [], []⟩ "" [] =
      Res.err (Error.MixedExecutionModels 0) :=
  (mixed_execution_models
      { complex_types := { pointers := [], arrays := [], structs := [] },
        global_variables := [], functions := [⟨none, Ty.Void, [], []⟩],
        entry_points := [⟨ExecutionModel.Vertex, 0, [], []⟩,
          ⟨ExecutionModel.Fragment, 0, [], []⟩] }
      { binding_map := [] } 0 ⟨none, Ty.Void, [], []⟩ "" []).1 (by decide)

/-- Concatenation of emitted lines. -/
def concatLines : List String → String
  | [] => ""
  | l :: ls => l ++ concatLines ls

/-- The individual lines the lifting loop would emit for a member list, one
`Res` per member, starting at member index `index`:  `ok` exactly when every
member's line is produced successfully. -/
def liftedLines (cts : ComplexTypes) (o : Options) (out_mode : LocationMode)
    (vtoken : Nat) (index : Nat) (members : List StructMember) :
    Res (List String) :=
  match members with
  | [] => Res.ok []
  | member :: rest =>
    match liftedMemberLine cts o out_mode vtoken index member with
    | Res.err e => Res.err e
    | Res.fatal => Res.fatal
    | Res.ok line =>
      match liftedLines cts o out_mode vtoken (index + 1) rest with
      | Res.err e => Res.err e
      | Res.fatal => Res.fatal
      | Res.ok lines => Res.ok (line :: lines)

/-- `liftedLines` produces exactly one line per member. -/
lemma liftedLines_length (cts : ComplexTypes) (o : Options)
    (out_mode : LocationMode) (vtoken : Nat) :
    ∀ (members : List StructMember) (index : Nat) (ls : List String),
      liftedLines cts o out_mode vtoken index members = Res.ok ls →
      ls.length = members.length := by
  intro members
  induction members with
  | nil =>
    intro index ls h
    cases h
    rfl
  | cons member rest ih =>
    intro index ls h
    simp only [liftedLines] at h
    cases h1 : liftedMemberLine cts o out_mode vtoken index member with
    | err e => rw [h1] at h; cases h
    | fatal => rw [h1] at h; cases h
    | ok line =>
      rw [h1] at h
      cases h2 : liftedLines cts o out_mode vtoken (index + 1) rest with
      | err e => rw [h2] at h; cases h
      | fatal => rw [h2] at h; cases h
      | ok lines =>
        rw [h2] at h
        cases h
        simp [ih (index + 1) lines h2]

/-- The lifting loop over `pre ++ rest` first appends exactly the lines of
`pre` (when they all succeed) and then continues with `rest` at the advanced
member index. -/
lemma writeLiftedMembers_append (cts : ComplexTypes) (o : Options)
    (out_mode : LocationMode) (vtoken : Nat) :
    ∀ (pre : List StructMember) (index : Nat) (ls : List String) (buf : String)
      (rest : List StructMember),
      liftedLines cts o out_mode vtoken index pre = Res.ok ls →
      writeLiftedMembers cts o out_mode vtoken index (pre ++ rest) buf =
        writeLiftedMembers cts o out_mode vtoken (index + pre.length) rest
          (buf ++ concatLines ls) := by
  intro pre
  induction pre with
  | nil =>
    intro index ls buf rest h
    cases h
    simp [concatLines, String.append_empty]
  | cons member p ih =>
    intro index ls buf rest h
    simp only [liftedLines] at h
    cases h1 : liftedMemberLine cts o out_mode vtoken index member with
    | err e => rw [h1] at h; cases h
    | fatal => rw [h1] at h; cases h
    | ok line =>
      rw [h1] at h
      cases h2 : liftedLines cts o out_mode vtoken (index + 1) p with
      | err e => rw [h2] at h; cases h
      | fatal => rw [h2] at h; cases h
      | ok lines =>
        rw [h2] at h
        cases h
        have := ih (index + 1) lines (buf ++ line) rest h2
        simp only [List.cons_append, writeLiftedMembers, h1, concatLines,
          List.append_eq]
        rw [this, ← String.append_assoc]
        have hidx : index + 1 + p.length = index + (member :: p).length := by
          rw [List.length_cons]
          omega
        rw [hidx]

/-- A member whose binding is absent makes the lifted line fail with
`MissingBinding` carrying the output variable's token. -/
lemma liftedMemberLine_none (cts : ComplexTypes) (o : Options)
    (out_mode : LocationMode) (vtoken index : Nat) (member : StructMember)
    (hnone : member.binding = none) :
    liftedMemberLine cts o out_mode vtoken index member =
      Res.err (Error.MissingBinding vtoken) := by
  simp [liftedMemberLine, hnone, Res.ofOption]

/-- C3: for an output variable whose type is a pointer to a struct, the
synthesized Output aggregate receives one direct member line per struct member
— unconditionally, with no built-in requirement anywhere in the hypotheses —
and a member without a binding makes the emission fail with `MissingBinding`
carrying the output variable's token; the stage table resolves output-side
bindings at FragmentOutput mode for Fragment and Intermediate mode for the
other supported stages. -/
theorem output_struct_lifting (m : Module) (o : Options)
    (out_mode : LocationMode) (token : Nat) (buf : String) (pt st : Nat)
    (hty : (m.gvar token).ty = Ty.Pointer pt)
    (hbase : (m.complex_types.ptr pt).base = Ty.Struct st) :
    (∀ ls, liftedLines m.complex_types o out_mode token 0
        (m.complex_types.str st).members = Res.ok ls →
      writeOutputVar m o out_mode token buf = Res.ok (buf ++ concatLines ls) ∧
        ls.length = (m.complex_types.str st).members.length) ∧
    (∀ pre mem post ls,
      (m.complex_types.str st).members = pre ++ mem :: post →
      mem.binding = none →
      liftedLines m.complex_types o out_mode token 0 pre = Res.ok ls →
      writeOutputVar m o out_mode token buf =
        Res.err (Error.MissingBinding token)) ∧
    stageModes ExecutionModel.Fragment =
      Res.ok ("fragment", LocationMode.Intermediate, LocationMode.FragmentOutput) ∧
    stageModes ExecutionModel.Vertex =
      Res.ok ("vertex", LocationMode.VertexInput, LocationMode.Intermediate) ∧
    stageModes ExecutionModel.GLCompute =
      Res.ok ("compute", LocationMode.Intermediate, LocationMode.Intermediate) := by
  have hout : writeOutputVar m o out_mode token buf =
      writeLiftedMembers m.complex_types o out_mode token 0
        (m.complex_types.str st).members buf := by
    simp only [writeOutputVar, hty, hbase]
  refine ⟨?_, ?_, rfl, rfl, rfl⟩
  · intro ls hls
    have happ := writeLiftedMembers_append m.complex_types o out_mode token
      (m.complex_types.str st).members 0 ls buf [] hls
    rw [List.append_nil] at happ
    rw [hout, happ]
    exact ⟨rfl, liftedLines_length _ _ _ _ _ _ _ hls⟩
  · intro pre mem post ls hmem hnone hls
    have happ := writeLiftedMembers_append m.complex_types o out_mode token
      pre 0 ls buf (mem :: post) hls
    rw [hout, hmem, happ]
    simp only [writeLiftedMembers,
      liftedMemberLine_none m.complex_types o out_mode token (0 + pre.length) mem hnone]

/-- A tiny module exercising C3's lifting: one Output-class pointer to a
one-member struct, the member bound to Location 0. -/
def exampleModuleC3 : Module :=
  { complex_types :=
      { pointers := [⟨StorageClass.Output, Ty.Struct 0, none⟩],
        arrays := [],
        structs := [⟨[⟨Ty.Scalar ScalarKind.Float, some (Binding.Location 0), none⟩], none⟩] },
    global_variables := [⟨Ty.Pointer 0, StorageClass.Output, none, none⟩],
    functions := [],
    entry_points := [] }

/-- C3 witness: the struct member is lifted into the Output aggregate as one
direct member line with its binding resolved at FragmentOutput mode. -/
theorem output_struct_lifting_witness :
    writeOutputVar exampleModuleC3 { binding_map := [] }
        LocationMode.FragmentOutput 0 "" =
      Res.ok ("" ++ concatLines ["\tfloat field0 [[color(0)]];\n"]) ∧
    (["\tfloat field0 [[color(0)]];\n"] : List String).length =
      (exampleModuleC3.complex_types.str 0).members.length :=
  (output_struct_lifting exampleModuleC3 { binding_map := [] }
      LocationMode.FragmentOutput 0 "" 0 0 (by decide) (by decide)).1
    ["\tfloat field0 [[color(0)]];\n"] (by decide)

/-- The tokens the uniform-injection loop (lines 459-468) would newly emit as
parameters, in emission order, given the set of already-emitted uniforms. -/
def newUniformTokens (m : Module) : List Expression → List Nat → List Nat
  | [], _ => []
  | Expression.GlobalVariable token :: rest, used =>
    if (m.gvar token).storage_class = StorageClass.Uniform ∧ ¬ used.contains token then
      token :: newUniformTokens m rest (used ++ [token])
    else newUniformTokens m rest used
  | Expression.other _ :: rest, used => newUniformTokens m rest used

/-- The parameter line emitted for one uniform global. -/
def uniformLine (m : Module) (token : Nat) : Res String :=
  match typedGlobalVariable m token with
  | Res.err e => Res.err e
  | Res.fatal => Res.fatal
  | Res.ok tv => Res.ok ("\t" ++ tv ++ ",\n")

/-- The parameter lines for a token list, `ok` when each one succeeds. -/
def uniformLinesOf (m : Module) : List Nat → Res (List String)
  | [] => Res.ok []
  | t :: ts =>
    match uniformLine m t with
    | Res.err e => Res.err e
    | Res.fatal => Res.fatal
    | Res.ok l =>
      match uniformLinesOf m ts with
      | Res.err e => Res.err e
      | Res.fatal => Res.fatal
      | Res.ok ls => Res.ok (l :: ls)

/-- The uniform-injection loop appends exactly the lines of the newly emitted
tokens and extends the module-wide set by exactly those tokens. -/
lemma uniformParams_characterisation (m : Module) :
    ∀ (exprs : List Expression) (used : List Nat) (buf : String) (ls : List String),
      uniformLinesOf m (newUniformTokens m exprs used) = Res.ok ls →
      uniformParams m exprs buf used =
        Res.ok (buf ++ concatLines ls, used ++ newUniformTokens m exprs used) := by
  intro exprs
  induction exprs with
  | nil =>
    intro used buf ls h
    cases h
    simp [uniformParams, newUniformTokens, concatLines, String.append_empty]
  | cons e rest ih =>
    intro used buf ls h
    cases e with
    | GlobalVariable token =>
      by_cases hc : (m.gvar token).storage_class = StorageClass.Uniform ∧
          ¬ used.contains token
      · rw [newUniformTokens, if_pos hc] at h ⊢
        simp only [uniformLinesOf] at h
        cases h1 : uniformLine m token with
        | err e' => rw [h1] at h; cases h
        | fatal => rw [h1] at h; cases h
        | ok l =>
          rw [h1] at h
          cases h2 : uniformLinesOf m (newUniformTokens m rest (used ++ [token])) with
          | err e' => rw [h2] at h; cases h
          | fatal => rw [h2] at h; cases h
          | ok ls' =>
            rw [h2] at h
            cases h
            cases h3 : typedGlobalVariable m token with
            | err e' => rw [uniformLine, h3] at h1; cases h1
            | fatal => rw [uniformLine, h3] at h1; cases h1
            | ok tv =>
              rw [uniformLine, h3] at h1
              cases h1
              rw [uniformParams, if_pos hc, h3]
              show uniformParams m rest (buf ++ ("\t" ++ tv ++ ",\n")) (used ++ [token]) = _
              rw [ih (used ++ [token]) _ ls' h2]
              rw [concatLines, List.append_assoc, List.singleton_append]
              simp [String.append_assoc]
      · rw [newUniformTokens, if_neg hc] at h ⊢
        rw [uniformParams, if_neg hc]
        exact ih used buf ls h
    | other n =>
      rw [newUniformTokens] at h ⊢
      rw [uniformParams]
      exact ih used buf ls h

/-- A token already in the module-wide set is never emitted again. -/
lemma newUniformTokens_not_mem (m : Module) (g : Nat) :
    ∀ (exprs : List Expression) (used : List Nat), g ∈ used →
      g ∉ newUniformTokens m exprs used := by
  intro exprs
  induction exprs with
  | nil =>
    intro used hg
    simp [newUniformTokens]
  | cons e rest ih =>
    intro used hg
    cases e with
    | GlobalVariable token =>
      by_cases hc : (m.gvar token).storage_class = StorageClass.Uniform ∧
          ¬ used.contains token
      · rw [newUniformTokens, if_pos hc]
        intro hmem
        rcases List.mem_cons.mp hmem with heq | hmem'
        · subst heq
          exact hc.2 (List.elem_iff.mpr hg)
        · exact ih (used ++ [token]) (List.mem_append_left _ hg) hmem'
      · rw [newUniformTokens, if_neg hc]
        exact ih used hg
    | other n =>
      rw [newUniformTokens]
      exact ih used hg

/-- A referenced uniform global not yet in the set is emitted exactly once by
the scan of one expression arena. -/
lemma newUniformTokens_count_one (m : Module) (g : Nat)
    (hg : (m.gvar g).storage_class = StorageClass.Uniform) :
    ∀ (exprs : List Expression) (used : List Nat),
      Expression.GlobalVariable g ∈ exprs → ¬ used.contains g →
      List.count g (newUniformTokens m exprs used) = 1 := by
  intro exprs
  induction exprs with
  | nil =>
    intro used h
    simp at h
  | cons e rest ih =>
    intro used hmem h0
    cases e with
    | GlobalVariable token =>
      by_cases ht : token = g
      · subst ht
        rw [newUniformTokens, if_pos ⟨hg, h0⟩, List.count_cons_self]
        have hnot : token ∉ newUniformTokens m rest (used ++ [token]) :=
          newUniformTokens_not_mem m token rest (used ++ [token])
            (List.mem_append_right _ (List.mem_singleton_self token))
        rw [List.count_eq_zero.mpr hnot]
      · have hmem' : Expression.GlobalVariable g ∈ rest := by
          rcases List.mem_cons.mp hmem with heq | h
          · exact absurd (Expression.GlobalVariable.inj heq).symm ht
          · exact h
        by_cases hc : (m.gvar token).storage_class = StorageClass.Uniform ∧
            ¬ used.contains token
        · rw [newUniformTokens, if_pos hc,
            List.count_cons_of_ne (fun hgt => ht hgt.symm)]
          apply ih (used ++ [token]) hmem'
          intro hcont
          rcases List.mem_append.mp (List.elem_iff.mp hcont) with h | h
          · exact h0 (List.elem_iff.mpr h)
          · rw [List.mem_singleton] at h
            exact ht h.symm
        · rw [newUniformTokens, if_neg hc]
          exact ih used hmem' h0
    | other n =>
      rw [newUniformTokens]
      refine ih used ?_ h0
      rcases List.mem_cons.mp hmem with heq | h
      · cases heq
      · exact h

/-- C4: the set of uniform globals already emitted as parameters persists
module-wide.  When two functions' expression arenas both reference the same
Uniform-class global `g` (not yet emitted), the first arena emits `g` exactly
once; the scan of the second arena, which starts from the set the first call
returned, does not emit it at all; and `uniformParams` demonstrably threads
the set: each call returns its input set extended by exactly the tokens it
newly emitted, and the second call consumes the first call's output set. -/
theorem uniform_injection_module_wide (m : Module)
    (exprs1 exprs2 : List Expression) (used0 : List Nat) (g : Nat)
    (hg : (m.gvar g).storage_class = StorageClass.Uniform)
    (h1 : Expression.GlobalVariable g ∈ exprs1)
    (_h2 : Expression.GlobalVariable g ∈ exprs2)
    (h0 : ¬ used0.contains g) :
    List.count g (newUniformTokens m exprs1 used0) = 1 ∧
    g ∈ used0 ++ newUniformTokens m exprs1 used0 ∧
    g ∉ newUniformTokens m exprs2 (used0 ++ newUniformTokens m exprs1 used0) ∧
    (∀ buf ls, uniformLinesOf m (newUniformTokens m exprs1 used0) = Res.ok ls →
      uniformParams m exprs1 buf used0 =
        Res.ok (buf ++ concatLines ls, used0 ++ newUniformTokens m exprs1 used0)) ∧
    (∀ buf ls, uniformLinesOf m (newUniformTokens m exprs2
        (used0 ++ newUniformTokens m exprs1 used0)) = Res.ok ls →
      uniformParams m exprs2 buf (used0 ++ newUniformTokens m exprs1 used0) =
        Res.ok (buf ++ concatLines ls,
          (used0 ++ newUniformTokens m exprs1 used0) ++
            newUniformTokens m exprs2
              (used0 ++ newUniformTokens m exprs1 used0))) := by
  have hcount := newUniformTokens_count_one m g hg exprs1 used0 h1 h0
  have hmem1 : g ∈ newUniformTokens m exprs1 used0 := by
    by_contra hn
    rw [List.count_eq_zero.mpr hn] at hcount
    exact absurd hcount (by decide)
  exact ⟨hcount, List.mem_append_right _ hmem1,
    newUniformTokens_not_mem m g exprs2 _ (List.mem_append_right _ hmem1),
    fun buf ls h => uniformParams_characterisation m exprs1 used0 buf ls h,
    fun buf ls h => uniformParams_characterisation m exprs2 _ buf ls h⟩

/-- A module with a single Uniform-class pointer global, for the C4 witness. -/
def exampleModuleC4 : Module :=
  { complex_types :=
      { pointers := [⟨StorageClass.Uniform, Ty.Scalar ScalarKind.Float, none⟩],
        arrays := [],
        structs := [] },
    global_variables := [⟨Ty.Pointer 0, StorageClass.Uniform, none, none⟩],
    functions := [],
    entry_points := [] }

/-- C4 witness: two expression arenas referencing uniform global 0; the first
scan emits it once, the second scan (fed the first scan's output set) does
not emit it, and `uniformParams` produces exactly the one parameter line. -/
theorem uniform_injection_module_wide_witness :
    List.count 0 (newUniformTokens exampleModuleC4 [Expression.GlobalVariable 0] []) = 1 ∧
    0 ∉ newUniformTokens exampleModuleC4 [Expression.GlobalVariable 0]
        ([] ++ newUniformTokens exampleModuleC4 [Expression.GlobalVariable 0] []) ∧
    uniformParams exampleModuleC4 [Expression.GlobalVariable 0] "" [] =
      Res.ok ("" ++ concatLines ["\tPointer0 global0,\n"],
        [] ++ newUniformTokens exampleModuleC4 [Expression.GlobalVariable 0] []) :=
  ⟨(uniform_injection_module_wide exampleModuleC4 [Expression.GlobalVariable 0]
      [Expression.GlobalVariable 0] [] 0 (by decide) (by decide) (by decide)
      (by decide)).1,
   (uniform_injection_module_wide exampleModuleC4 [Expression.GlobalVariable 0]
      [Expression.GlobalVariable 0] [] 0 (by decide) (by decide) (by decide)
      (by decide)).2.2.1,
   (uniform_injection_module_wide exampleModuleC4 [Expression.GlobalVariable 0]
      [Expression.GlobalVariable 0] [] 0 (by decide) (by decide) (by decide)
      (by decide)).2.2.2.1 "" ["\tPointer0 global0,\n"] (by decide)⟩

/-- A module with one function (return type float) and no entry points, for
the C5 counterexample and witness. -/
def exampleModuleC5 : Module :=
  { complex_types := { pointers := [], arrays := [], structs := [] },
    global_variables := [],
    functions := [⟨none, Ty.Scalar ScalarKind.Float, [], []⟩],
    entry_points := [] }

/-- Whether `pat` is a prefix of the character list. -/
def isPrefixChars : List Char → List Char → Bool
  | [], _ => true
  | _ :: _, [] => false
  | p :: ps, c :: cs => p == c && isPrefixChars ps cs

/-- Number of (possibly overlapping) occurrences of `pat` in the text. -/
def countOccurrences (pat : List Char) : List Char → Nat
  | [] => 0
  | c :: cs => (if isPrefixChars pat (c :: cs) then 1 else 0) + countOccurrences pat cs

set_option maxRecDepth 8192 in
/-- C5 counterexample: for a function with no execution model the claim says
the declared local's type is the function's *return* type (here `float`), but
the emitted body declares the local with the synthesized Output-struct name
`Output0`: the full output contains the line `\tOutput0 output;` exactly once
and contains no occurrence of `float output` at all. -/
theorem body_local_uses_output_name_counterexample :
    write_string exampleModuleC5 { binding_map := [] } =
      Res.ok ("#include <metal_stdlib>\n#include <simd/simd.h>\nusing namespace metal;\n\n\nfloat function0(\n\tint _dummy\n) \x7b\n\tOutput0 output;\n\treturn output;\n\x7d\n") ∧
    countOccurrences ("\tOutput0 output;\n").data ("#include <metal_stdlib>\n#include <simd/simd.h>\nusing namespace metal;\n\n\nfloat function0(\n\tint _dummy\n) \x7b\n\tOutput0 output;\n\treturn output;\n\x7d\n").data = 1 ∧
    countOccurrences ("float output").data ("#include <metal_stdlib>\n#include <simd/simd.h>\nusing namespace metal;\n\n\nfloat function0(\n\tint _dummy\n) \x7b\n\tOutput0 output;\n\treturn output;\n\x7d\n").data = 0 := by
  refine ⟨by decide, by decide, by decide⟩

/-- C5 as amended: for every function whose emission succeeds, the emitted
text ends with exactly the two-statement body stub — a declaration of a
default-valued local named `output` whose declared type name is the
synthesized Output-struct name of the function (also when the function has no
execution model; the return type is not used by the body), followed by a
return of that local. -/
theorem function_body_stub (m : Module) (o : Options) (ft : Nat) (f : Function)
    (buf : String) (used : List Nat) (buf' : String) (used' : List Nat)
    (h : writeFunction m o ft f buf used = Res.ok (buf', used')) :
    ∃ mid, buf' = mid ++ (") \x7b\n" ++ "\t" ++
      Name.fmt (or_index f.name "Output" true ft) ++ " " ++ NAME_OUTPUT ++ ";\n" ++
      "\treturn " ++ NAME_OUTPUT ++ ";\n" ++ "\x7d\n") := by
  cases hs : writeFunctionSig m o ft f buf used with
  | err e =>
    simp only [writeFunction, hs] at h
    cases h
  | fatal =>
    simp only [writeFunction, hs] at h
    cases h
  | ok p =>
    obtain ⟨b1, u1⟩ := p
    simp only [writeFunction, hs] at h
    obtain ⟨hb, -⟩ := Prod.mk.inj (Res.ok.inj h)
    refine ⟨b1, ?_⟩
    rw [← hb]
    simp [String.append_assoc]

/-- C5 witness: the float-returning, entry-point-less function of
`exampleModuleC5`; its emitted text ends with the `Output0 output;` stub. -/
theorem function_body_stub_witness :
    ∃ mid,
      "float function0(\n\tint _dummy\n) \x7b\n\tOutput0 output;\n\treturn output;\n\x7d\n" =
        mid ++ (") \x7b\n" ++ "\t" ++
          Name.fmt (or_index (none : Option String) "Output" true 0) ++ " " ++
          NAME_OUTPUT ++ ";\n" ++ "\treturn " ++ NAME_OUTPUT ++ ";\n" ++ "\x7d\n") :=
  function_body_stub exampleModuleC5 { binding_map := [] } 0
    ⟨none, Ty.Scalar ScalarKind.Float, [], []⟩ "" []
    "float function0(\n\tint _dummy\n) \x7b\n\tOutput0 output;\n\treturn output;\n\x7d\n"
    [] (by decide)

/-- C9: the top-level write is all-or-nothing — `write_string` hands the
caller exactly the complete buffer of a successful `Writer::write` run
started on the empty buffer, or the first structured error that run produced
(the error constructor carries no text, so no partial output can reach the
caller), or it aborts (a panic) and returns nothing at all. -/
theorem write_string_all_or_nothing (m : Module) (o : Options) :
    (∃ s, Writer.write "" m o = Res.ok s ∧ write_string m o = Res.ok s) ∨
    (∃ e, Writer.write "" m o = Res.err e ∧ write_string m o = Res.err e ∧
      ∀ s, write_string m o ≠ Res.ok s) ∨
    (Writer.write "" m o = Res.fatal ∧ write_string m o = Res.fatal) := by
  cases h : Writer.write "" m o with
  | ok s =>
    refine Or.inl ⟨s, rfl, ?_⟩
    simp only [write_string, h]
  | err e =>
    refine Or.inr (Or.inl ⟨e, rfl, ?_, ?_⟩)
    · simp only [write_string, h]
    · intro s hs
      simp only [write_string, h] at hs
      cases hs
  | fatal =>
    refine Or.inr (Or.inr ⟨rfl, ?_⟩)
    simp only [write_string, h]

end naga
